import Mathlib

set_option linter.unusedVariables false

/-!
Shallow embedding of the event-management page (OfficerManageEventsPage) and
the profile page (ProfilePage / ProfileCard) of the Specs-Nexus front end.

Page-local React state becomes a record; each async handler becomes a pure
function from the current state and the outcomes of the backend requests it
awaits to the next state.  Backend requests issued by a handler are appended,
in program order, to an explicit `calls` log.  Service-layer failures
(`getOfficerEvents`, `createOfficerEvent`, `updateOfficerEvent`,
`deleteOfficerEvent`, `getProfile`, `updateProfile` throw `Error` objects)
are modelled as `Except String`, carrying the error message the page code
inspects; raw `fetch` calls (approve, participants) are modelled as
`FetchOutcome`, carrying the HTTP status for the `res.ok` / `res.status`
checks the page performs.
-/

/-- String containment helper: does `pat` occur as a contiguous run in `s`?
Models JavaScript `String.prototype.includes`. -/
def charsMatch : List Char → List Char → Bool
  | [], _ => true
  | _ :: _, [] => false
  | p :: ps, c :: cs => p == c && charsMatch ps cs

def charsContain (pat : List Char) : List Char → Bool
  | [] => charsMatch pat []
  | c :: cs => charsMatch pat (c :: cs) || charsContain pat cs

def strContains (s pat : String) : Bool :=
  charsContain pat.data s.data

/-- The 401 / invalid-token test the page applies to service-layer error
messages: `error.message.includes('Invalid or expired token') ||
error.message.includes('HTTP error! status: 401')`. -/
def isAuthErrorMsg (msg : String) : Bool :=
  strContains msg "Invalid or expired token" || strContains msg "HTTP error! status: 401"

structure Event where
  id : Nat
  title : String
  date : String
  location : String
  image_url : String
  participant_count : Nat
deriving DecidableEq, Repr

structure Participant where
  info : String
deriving DecidableEq, Repr

structure UserProfile where
  student_number : String
  full_name : String
  year : String
  block : String
  email : String
deriving DecidableEq, Repr

/-- Outcome of a raw `fetch` call: a 2xx response with a parsed JSON body, a
non-ok response with a status code and the optional `detail` field of the
error body, or a thrown error (network failure, JSON parse failure, ...). -/
inductive FetchOutcome (α : Type) where
  | ok (body : α)
  | httpErr (status : Nat) (detail : Option String)
  | thrown (message : String)
deriving DecidableEq, Repr

/-- A backend request issued by the page, recorded in program order. -/
inductive BackendCall where
  | getEvents (token : Option String) (archived : Bool)
  | createEvent (token : Option String)
  | updateEvent (id : Option Nat) (token : Option String)
  | deleteEvent (id : Option Nat) (token : Option String)
  | approveEvent (id : Nat)
  | getParticipants (id : Nat)
  | getProfile (token : Option String)
  | updateProfileReq (token : Option String)
deriving DecidableEq, Repr

structure StatusModalState where
  isOpen : Bool
  title : String
  message : String
  type : String
deriving DecidableEq, Repr

/-- The confirmation-modal state object.  `onConfirm` is a function prop in
the source; the only handler ever installed is `confirmArchive`, so it is
modelled by the flag `onConfirmIsArchive` (initially `null`, i.e. `false`). -/
structure ConfirmationModalState where
  isOpen : Bool
  title : String
  message : String
  eventId : Option Nat
  onConfirmIsArchive : Bool
  isLoading : Bool
deriving DecidableEq, Repr

structure ApprovalModalState where
  isOpen : Bool
  eventId : Option Nat
deriving DecidableEq, Repr

/-- The two localStorage keys the officer page reads and clears. -/
structure OfficerStorage where
  officerAccessToken : Option String
  officerInfo : Option String
deriving DecidableEq, Repr

/-- The two localStorage keys the profile page reads and clears. -/
structure UserStorage where
  access_token : Option String
  user_id : Option String
deriving DecidableEq, Repr

/-- State of OfficerManageEventsPage: the `useState` hooks, the captured
`token` binding, localStorage, the navigation target (`navigate(...)`), and
the log of backend calls issued. -/
structure PageState where
  officer : Option String
  events : List Event
  showEventModal : Bool
  showDetailsModal : Bool
  selectedEvent : Option Event
  showParticipantsModal : Bool
  participants : List Participant
  isLoading : Bool
  showArchived : Bool
  isTransitioning : Bool
  statusModal : StatusModalState
  confirmationModal : ConfirmationModalState
  approvalModal : ApprovalModalState
  token : Option String
  storage : OfficerStorage
  navigatedTo : Option String
  calls : List BackendCall
deriving DecidableEq, Repr

/-- Clearing both officer localStorage keys and navigating to the login
page, as done on every 401 / invalid-token path of the officer page. -/
def clearAndRedirect (s : PageState) : PageState :=
  { s with storage := ⟨none, none⟩, navigatedTo := some "/officer-login" }

/-- The `fetchData` effect: guard on a missing token, set officer info from
storage, call `getOfficerEvents`, then either store the list or run the
error handling; the `finally` block clears the loading flags. -/
def fetchData (s : PageState) (eventsRes : Except String (List Event)) : PageState :=
  match s.token with
  | none => s
  | some tok =>
    if tok.isEmpty then s
    else
      let s0 := { s with officer := s.storage.officerInfo }
      let s1 := { s0 with calls := s0.calls ++ [BackendCall.getEvents (some tok) s0.showArchived] }
      let s2 :=
        match eventsRes with
        | Except.ok evts => { s1 with events := evts }
        | Except.error msg =>
          if isAuthErrorMsg msg then clearAndRedirect s1
          else
            let errorMessage :=
              if strContains msg "Officer not found" then
                "Your officer account was not found or is deactivated. Please contact support or log in again."
              else "Failed to load events. Please try again later."
            { s1 with statusModal := ⟨true, "Error", errorMessage, "error"⟩ }
      { s2 with isLoading := false, isTransitioning := false }

def handleAddNewEvent (s : PageState) : PageState :=
  { s with selectedEvent := none, showEventModal := true }

def handleEdit (s : PageState) (evt : Event) : PageState :=
  { s with selectedEvent := some evt, showEventModal := true }

def handleApproveEvent (s : PageState) (eventId : Nat) : PageState :=
  { s with approvalModal := ⟨true, some eventId⟩ }

/-- The `reason ? ` Reason: ${reason}` : ''` suffix of the decline message
(a JavaScript falsy check, so an empty string produces no suffix). -/
def declineReasonText (reason : Option String) : String :=
  match reason with
  | some r => if r.isEmpty then "" else " Reason: " ++ r
  | none => ""

/-- The catch block of `handleApprovalSubmit`: close the approval modal and
show `error.message || 'Failed to approve event. Please try again.'`. -/
def approvalCatch (s : PageState) (msg : String) : PageState :=
  { s with approvalModal := ⟨false, none⟩,
           statusModal := ⟨true, "Error",
             (if msg.isEmpty then "Failed to approve event. Please try again." else msg),
             "error"⟩ }

/-- `handleApprovalSubmit({ action, reason })`: guard on a missing event id;
a decline is handled without a backend call; the approve path POSTs to the
approve endpoint, redirects on a 401, throws the `detail` otherwise, and on
success shows the success modal and re-fetches the event list. -/
def handleApprovalSubmit (s : PageState) (action : String) (reason : Option String)
    (approveRes : FetchOutcome Unit) (refetchRes : Except String (List Event)) : PageState :=
  match s.approvalModal.eventId with
  | none => { s with approvalModal := ⟨false, none⟩ }
  | some eventId =>
    if action = "decline" then
      { s with approvalModal := ⟨false, none⟩,
               statusModal := ⟨true, "Event Declined",
                 "The event plan has been declined." ++ declineReasonText reason, "error"⟩ }
    else
      let s1 := { s with calls := s.calls ++ [BackendCall.approveEvent eventId] }
      match approveRes with
      | FetchOutcome.httpErr status detail =>
        if status = 401 then clearAndRedirect s1
        else
          approvalCatch s1
            (match detail with
             | some d => if d.isEmpty then "Failed to approve event" else d
             | none => "Failed to approve event")
      | FetchOutcome.thrown msg => approvalCatch s1 msg
      | FetchOutcome.ok _ =>
        let s2 := { s1 with approvalModal := ⟨false, none⟩,
                            statusModal := ⟨true, "Event Approved",
                              "The event plan has been successfully approved.", "success"⟩ }
        let s3 := { s2 with calls := s2.calls ++ [BackendCall.getEvents s2.token s2.showArchived] }
        match refetchRes with
        | Except.ok evts => { s3 with events := evts }
        | Except.error msg => approvalCatch s3 msg

/-- `handleArchive(eventId, e)`: only opens the confirmation modal, with
`confirmArchive` installed as the confirm handler; no backend call. -/
def handleArchive (s : PageState) (eventId : Nat) : PageState :=
  { s with confirmationModal :=
    { isOpen := true
      title := "Archive Event"
      message := "Are you sure you want to archive this event? This action will move the event to archived status."
      eventId := some eventId
      onConfirmIsArchive := true
      isLoading := false } }

/-- The catch block of `confirmArchive`: redirect on a 401 / invalid token,
otherwise close the modal and show the archive error status modal. -/
def archiveError (s : PageState) (msg : String) : PageState :=
  if isAuthErrorMsg msg then clearAndRedirect s
  else
    { s with confirmationModal := { s.confirmationModal with isOpen := false, isLoading := false },
             statusModal := ⟨true, "Error Archiving Event",
               "Failed to archive the event. Please try again.", "error"⟩ }

/-- `confirmArchive`: set the modal's loading flag, call
`deleteOfficerEvent`, re-fetch the event list, then close the modal and show
the success status modal; both awaits share the one catch block. -/
def confirmArchive (s : PageState) (deleteRes : Except String Unit)
    (refetchRes : Except String (List Event)) : PageState :=
  let eventId := s.confirmationModal.eventId
  let s0 := { s with confirmationModal := { s.confirmationModal with isLoading := true } }
  let s1 := { s0 with calls := s0.calls ++ [BackendCall.deleteEvent eventId s0.token] }
  match deleteRes with
  | Except.error msg => archiveError s1 msg
  | Except.ok _ =>
    let s2 := { s1 with calls := s1.calls ++ [BackendCall.getEvents s1.token s1.showArchived] }
    match refetchRes with
    | Except.error msg => archiveError s2 msg
    | Except.ok evts =>
      { s2 with events := evts,
                confirmationModal := { s2.confirmationModal with isOpen := false, isLoading := false },
                statusModal := ⟨true, "Event Archived",
                  "The event has been successfully archived.", "success"⟩ }

def handleDetails (s : PageState) (evt : Event) : PageState :=
  { s with selectedEvent := some evt, showDetailsModal := true }

/-- `handleParticipants(event, e)`: guard on a falsy `event?.id` (a missing
event or the falsy id 0), then fetch the participants; a 401 redirects, any
other failure sets an empty list, shows the error status modal and still
opens the participants modal; success stores `participantsData || []`. -/
def handleParticipants (s : PageState) (ev : Option Event)
    (res : FetchOutcome (Option (List Participant))) : PageState :=
  match ev with
  | none =>
    { s with statusModal := ⟨true, "Error", "Cannot load participants: Invalid event.", "error"⟩ }
  | some e =>
    if e.id = 0 then
      { s with statusModal := ⟨true, "Error", "Cannot load participants: Invalid event.", "error"⟩ }
    else
      let s1 := { s with showDetailsModal := false, selectedEvent := some e }
      let s2 := { s1 with calls := s1.calls ++ [BackendCall.getParticipants e.id] }
      match res with
      | FetchOutcome.ok body =>
        { s2 with participants := body.getD [], showParticipantsModal := true }
      | FetchOutcome.httpErr status _ =>
        if status = 401 then clearAndRedirect s2
        else
          { s2 with participants := [],
                    statusModal := ⟨true, "Error",
                      "Failed to load participants. Please try again later.", "error"⟩,
                    showParticipantsModal := true }
      | FetchOutcome.thrown _ =>
        { s2 with participants := [],
                  statusModal := ⟨true, "Error",
                    "Failed to load participants. Please try again later.", "error"⟩,
                  showParticipantsModal := true }

def handleCloseEventModal (s : PageState) : PageState :=
  { s with showEventModal := false }

def handleCloseDetailsModal (s : PageState) : PageState :=
  { s with showDetailsModal := false, selectedEvent := none }

def handleCloseParticipantsModal (s : PageState) : PageState :=
  { s with showParticipantsModal := false, participants := [] }

def handleCloseStatusModal (s : PageState) : PageState :=
  { s with statusModal := { s.statusModal with isOpen := false } }

/-- `handleCloseConfirmationModal`: a no-op while the confirmation modal's
loading flag is set, otherwise closes the modal (keeping the other fields). -/
def handleCloseConfirmationModal (s : PageState) : PageState :=
  if s.confirmationModal.isLoading then s
  else { s with confirmationModal := { s.confirmationModal with isOpen := false } }

/-- The error handling of `handleSave`: compute the message, redirect on a
401 / invalid token, otherwise show the save-error status modal. -/
def saveError (s : PageState) (msg : String) : PageState :=
  let errorMessage :=
    if strContains msg "Officer not found" then
      "Your officer account was not found or is deactivated. Please contact support or log in again."
    else "Failed to save the event. Please try again."
  if isAuthErrorMsg msg then clearAndRedirect s
  else { s with statusModal := ⟨true, "Error Saving Event", errorMessage, "error"⟩ }

/-- `handleSave(formData, eventId)`: update when an event id is given,
create otherwise; on success show the success modal, close the event modal,
re-fetch the event list and store it; failures of either await share the one
catch block. -/
def handleSave (s : PageState) (eventId : Option Nat)
    (saveRes : Except String Unit) (refetchRes : Except String (List Event)) : PageState :=
  let s1 := { s with calls := s.calls ++
      [match eventId with
       | some i => BackendCall.updateEvent (some i) s.token
       | none => BackendCall.createEvent s.token] }
  match saveRes with
  | Except.error msg => saveError s1 msg
  | Except.ok _ =>
    let s2 := { s1 with statusModal :=
        match eventId with
        | some _ => ⟨true, "Event Updated", "Event updated successfully!", "success"⟩
        | none => ⟨true, "Event Created", "Event created successfully!", "success"⟩ }
    let s3 := { s2 with showEventModal := false }
    let s4 := { s3 with calls := s3.calls ++ [BackendCall.getEvents s3.token s3.showArchived] }
    match refetchRes with
    | Except.ok evts => { s4 with events := evts }
    | Except.error msg => saveError s4 msg

def toggleArchived (s : PageState) : PageState :=
  { s with isTransitioning := true, showArchived := !s.showArchived }

/-- `truncateText(text, maxLength)`, with a JavaScript string modelled as a
list of characters and an absent / falsy argument as `none` or the empty
list: `if (!text) return ''; return text.length > maxLength ?
text.substring(0, maxLength) + '...' : text;`. -/
def truncateText (text : Option (List Char)) (maxLength : Nat) : List Char :=
  match text with
  | none => []
  | some t =>
    if t.isEmpty then []
    else if maxLength < t.length then t.take maxLength ++ ['.', '.', '.']
    else t

deriving instance DecidableEq for Except

/-- A user interaction (or mount effect) on the events page, carrying the
outcomes of the backend requests the corresponding handler awaits. -/
inductive UIAction where
  | fetch (eventsRes : Except String (List Event))
  | addNewEvent
  | edit (evt : Event)
  | approveOpen (eventId : Nat)
  | approvalSubmit (action : String) (reason : Option String)
      (approveRes : FetchOutcome Unit) (refetchRes : Except String (List Event))
  | archiveClick (eventId : Nat)
  | confirmArchiveAct (deleteRes : Except String Unit) (refetchRes : Except String (List Event))
  | details (evt : Event)
  | participantsClick (ev : Option Event) (res : FetchOutcome (Option (List Participant)))
  | closeEventModal
  | closeDetailsModal
  | closeParticipantsModal
  | closeStatusModal
  | closeConfirmation
  | closeApproval
  | saveEvent (eventId : Option Nat) (saveRes : Except String Unit)
      (refetchRes : Except String (List Event))
  | toggle
deriving DecidableEq, Repr

/-- One step of the events page.  The `confirmArchiveAct` guard is modelled
from the spec: modal components are "purely presentational, parameterized by
open/closed flags and callback props", so the confirmation modal fires its
`onConfirm` callback only while it is open and a handler is installed; all
other behaviour is the page source. -/
def step (s : PageState) (a : UIAction) : PageState :=
  match a with
  | UIAction.fetch r => fetchData s r
  | UIAction.addNewEvent => handleAddNewEvent s
  | UIAction.edit evt => handleEdit s evt
  | UIAction.approveOpen i => handleApproveEvent s i
  | UIAction.approvalSubmit act reason ar rr => handleApprovalSubmit s act reason ar rr
  | UIAction.archiveClick i => handleArchive s i
  | UIAction.confirmArchiveAct d r =>
    if s.confirmationModal.isOpen && s.confirmationModal.onConfirmIsArchive then
      confirmArchive s d r
    else s
  | UIAction.details evt => handleDetails s evt
  | UIAction.participantsClick ev r => handleParticipants s ev r
  | UIAction.closeEventModal => handleCloseEventModal s
  | UIAction.closeDetailsModal => handleCloseDetailsModal s
  | UIAction.closeParticipantsModal => handleCloseParticipantsModal s
  | UIAction.closeStatusModal => handleCloseStatusModal s
  | UIAction.closeApproval => { s with approvalModal := ⟨false, none⟩ }
  | UIAction.closeConfirmation => handleCloseConfirmationModal s
  | UIAction.saveEvent eid sr rr => handleSave s eid sr rr
  | UIAction.toggle => toggleArchived s

def run (s : PageState) (tr : List UIAction) : PageState :=
  tr.foldl step s

/-- The initial `useState` values of the events page, for a given captured
token and localStorage contents. -/
def initState (token : Option String) (storage : OfficerStorage) : PageState :=
  { officer := none
    events := []
    showEventModal := false
    showDetailsModal := false
    selectedEvent := none
    showParticipantsModal := false
    participants := []
    isLoading := true
    showArchived := false
    isTransitioning := false
    statusModal := ⟨false, "", "", "success"⟩
    confirmationModal := ⟨false, "", "", none, false, false⟩
    approvalModal := ⟨false, none⟩
    token := token
    storage := storage
    navigatedTo := none
    calls := [] }

def callIsDelete : BackendCall → Bool
  | BackendCall.deleteEvent _ _ => true
  | _ => false

/-- State of ProfilePage: user, loading flag, status-modal state, the
captured token, localStorage, navigation target and backend-call log. -/
structure ProfileState where
  user : Option UserProfile
  isLoading : Bool
  modalState : StatusModalState
  token : Option String
  storage : UserStorage
  navigatedTo : Option String
  calls : List BackendCall
deriving DecidableEq, Repr

/-- The `fetchProfile` effect (with its `if (!token) return` guard): on
success store the profile; on any failure clear both localStorage keys and
navigate to the login page; `finally` clears the loading flag. -/
def fetchProfile (s : ProfileState) (res : Except String UserProfile) : ProfileState :=
  match s.token with
  | none => s
  | some tok =>
    if tok.isEmpty then s
    else
      let s1 := { s with calls := s.calls ++ [BackendCall.getProfile (some tok)] }
      let s2 :=
        match res with
        | Except.ok u => { s1 with user := some u }
        | Except.error _ =>
          { s1 with storage := ⟨none, none⟩, navigatedTo := some "/" }
      { s2 with isLoading := false }

/-- `handleUpdateProfile(updatedData)`: on success store the returned
profile and show the success modal; on any failure (a 401 included) show the
error modal — storage and navigation are untouched on both paths. -/
def handleUpdateProfile (s : ProfileState) (res : Except String UserProfile) : ProfileState :=
  let s1 := { s with calls := s.calls ++ [BackendCall.updateProfileReq s.token] }
  match res with
  | Except.ok u =>
    { s1 with user := some u,
              modalState := ⟨true, "Profile Updated",
                "Your profile has been successfully updated.", "success"⟩ }
  | Except.error _ =>
    { s1 with modalState := ⟨true, "Profile Update Failed",
        "Failed to update profile. Please try again.", "error"⟩ }

/-- The three input names rendered by the ProfileCard edit form. -/
inductive FormField where
  | fullName
  | yearField
  | blockField
deriving DecidableEq, Repr

def FormField.fieldName : FormField → String
  | FormField.fullName => "full_name"
  | FormField.yearField => "year"
  | FormField.blockField => "block"

/-- JavaScript object update `{ ...formData, [name]: value }` on an object
modelled as an ordered association list: replace in place when the key
exists, append otherwise. -/
def setField : List (String × String) → String → String → List (String × String)
  | [], n, v => [(n, v)]
  | (k, w) :: rest, n, v =>
    if k = n then (k, v) :: rest else (k, w) :: setField rest n v

/-- The ProfileCard `useState` initializer for `formData`: exactly the
fields `full_name`, `year` and `block` of the current user. -/
def initFormData (u : UserProfile) : List (String × String) :=
  [("full_name", u.full_name), ("year", u.year), ("block", u.block)]

/-- A sequence of `handleInputChange` events coming from the form's inputs
(the form renders inputs named `full_name`, `year`, `block` only). -/
def applyEdits : List (String × String) → List (FormField × String) → List (String × String)
  | fd, [] => fd
  | fd, (f, v) :: rest => applyEdits (setField fd f.fieldName v) rest

/-- The payload `handleSubmit` passes to `onUpdate`: the `formData` object
after an arbitrary sequence of form edits. -/
def submitPayload (u : UserProfile) (edits : List (FormField × String)) : List (String × String) :=
  applyEdits (initFormData u) edits

/-- A concrete event, used to evaluate the handlers on explicit inputs. -/
def sampleEvent : Event :=
  { id := 5, title := "Sports Fest", date := "2025-01-01T10:00:00",
    location := "Gym", image_url := "/img.png", participant_count := 12 }

/-- A freshly mounted events page with a stored officer token. -/
def samplePage : PageState :=
  initState (some "tok") ⟨some "tok", some "info"⟩

/-- The events page right after the admin opened the approval modal for
event 7. -/
def samplePageApproval : PageState :=
  { samplePage with approvalModal := ⟨true, some 7⟩ }

/-- A loaded profile page with stored credentials. -/
def sampleProfile : ProfileState :=
  { user := none, isLoading := false,
    modalState := ⟨false, "", "", "success"⟩,
    token := some "tok", storage := ⟨some "tok", some "uid"⟩,
    navigatedTo := none, calls := [] }

/-! ## Helper lemmas -/

theorem keys_setField (fd : List (String × String)) (n v : String) :
    (setField fd n v).map Prod.fst =
      if n ∈ fd.map Prod.fst then fd.map Prod.fst else fd.map Prod.fst ++ [n] := by
  induction fd with
  | nil => simp [setField]
  | cons p rest ih =>
    obtain ⟨k, w⟩ := p
    by_cases h : k = n
    · simp [setField, h]
    · rw [List.map_cons]
      simp only [setField, if_neg h, List.map_cons, ih]
      by_cases h2 : n ∈ rest.map Prod.fst
      · simp [h2, Ne.symm h]
      · simp [h2, Ne.symm h]

theorem keys_applyEdits (edits : List (FormField × String)) (fd : List (String × String))
    (h : fd.map Prod.fst = ["full_name", "year", "block"]) :
    (applyEdits fd edits).map Prod.fst = ["full_name", "year", "block"] := by
  induction edits generalizing fd with
  | nil => simpa [applyEdits] using h
  | cons e rest ih =>
    obtain ⟨f, v⟩ := e
    show (applyEdits (setField fd f.fieldName v) rest).map Prod.fst = _
    apply ih
    rw [keys_setField, h]
    cases f <;> simp [FormField.fieldName]

theorem lookup_eq_none_of_not_mem_keys (l : List (String × String)) (k : String)
    (h : k ∉ l.map Prod.fst) : l.lookup k = none := by
  induction l with
  | nil => rfl
  | cons p rest ih =>
    obtain ⟨k1, v1⟩ := p
    simp only [List.map_cons, List.mem_cons, not_or] at h
    have hb : (k == k1) = false := beq_eq_false_iff_ne.mpr h.1
    simp [List.lookup, hb, ih h.2]

/-! ## Claim theorems -/

/-- C9: `truncateText` returns the empty string for an absent or falsy text,
returns the text unchanged when its length is at most `maxLength`, returns
the first `maxLength` characters followed by `...` otherwise, and so the
result never exceeds `maxLength + 3` characters. -/
theorem truncateText_spec (t : List Char) (n : Nat) :
    truncateText none n = []
    ∧ truncateText (some []) n = []
    ∧ (t.length ≤ n → truncateText (some t) n = t)
    ∧ (n < t.length → truncateText (some t) n = t.take n ++ ['.', '.', '.'])
    ∧ (∀ o : Option (List Char), (truncateText o n).length ≤ n + 3) := by
  refine ⟨rfl, rfl, ?_, ?_, ?_⟩
  · intro h
    cases t with
    | nil => rfl
    | cons c cs =>
      simp only [truncateText]
      rw [if_neg (by simp), if_neg (Nat.not_lt.mpr h)]
  · intro h
    cases t with
    | nil => simp at h
    | cons c cs =>
      simp only [truncateText]
      rw [if_neg (by simp), if_pos h]
  · intro o
    match o with
    | none => simp [truncateText]
    | some u =>
      cases u with
      | nil => simp [truncateText]
      | cons c cs =>
        by_cases h : n < (c :: cs).length
        · simp only [truncateText]
          rw [if_neg (by simp), if_pos h]
          simp only [List.length_append, List.length_take, List.length_cons, List.length_nil]
          omega
        · simp only [truncateText]
          rw [if_neg (by simp), if_neg h]
          omega

/-- C9 witness: evaluating the theorem's bounded-length clause at a concrete
two-character text and limit 5 returns the text unchanged. -/
theorem truncateText_spec_witness :
    "ab".data.length ≤ 5 ∧ truncateText (some "ab".data) 5 = "ab".data :=
  ⟨by decide, (truncateText_spec "ab".data 5).2.2.1 (by decide)⟩

/-- C10: while the confirmation modal's `isLoading` flag is set, the close
handler is a no-op (the modal stays open exactly as it was); when no archive
request is in flight the handler closes the modal. -/
theorem closeConfirmation_spec (s : PageState) :
    (s.confirmationModal.isLoading = true → handleCloseConfirmationModal s = s)
    ∧ (s.confirmationModal.isLoading = false →
        (handleCloseConfirmationModal s).confirmationModal.isOpen = false
        ∧ (handleCloseConfirmationModal s).confirmationModal.isLoading = false) := by
  constructor
  · intro h
    simp [handleCloseConfirmationModal, h]
  · intro h
    simp [handleCloseConfirmationModal, h]

/-- C10 witness: on a page whose archive request is in flight the close
handler leaves the state unchanged. -/
theorem closeConfirmation_spec_witness :
    ({ samplePage with
        confirmationModal := ⟨true, "t", "m", some 5, true, true⟩ } : PageState).confirmationModal.isLoading = true
    ∧ handleCloseConfirmationModal
        { samplePage with confirmationModal := ⟨true, "t", "m", some 5, true, true⟩ }
      = { samplePage with confirmationModal := ⟨true, "t", "m", some 5, true, true⟩ } :=
  ⟨rfl, (closeConfirmation_spec _).1 rfl⟩

/-- C7: a successful profile update stores the profile returned by the
backend as the displayed user and opens the success status modal. -/
theorem updateProfile_success_spec (s : ProfileState) (u : UserProfile) :
    (handleUpdateProfile s (Except.ok u)).user = some u
    ∧ (handleUpdateProfile s (Except.ok u)).modalState =
        ⟨true, "Profile Updated", "Your profile has been successfully updated.", "success"⟩ :=
  ⟨rfl, rfl⟩

/-- C8: for every sequence of edits made through the profile form, the
submitted payload carries exactly the keys `full_name`, `year` and `block`;
`student_number` and `email` are never part of it. -/
theorem submitPayload_fields (u : UserProfile) (edits : List (FormField × String)) :
    (submitPayload u edits).map Prod.fst = ["full_name", "year", "block"]
    ∧ (submitPayload u edits).lookup "student_number" = none
    ∧ (submitPayload u edits).lookup "email" = none := by
  have hk : (submitPayload u edits).map Prod.fst = ["full_name", "year", "block"] :=
    keys_applyEdits edits (initFormData u) (by simp [initFormData])
  refine ⟨hk, ?_, ?_⟩
  · refine lookup_eq_none_of_not_mem_keys _ _ ?_
    rw [hk]
    decide
  · refine lookup_eq_none_of_not_mem_keys _ _ ?_
    rw [hk]
    decide

/-- C3: a successful update, create or archive call always issues a fresh
`getOfficerEvents` request with the captured token and current archived
flag (whatever the re-fetch outcome), and when the re-fetch succeeds the
in-memory event list is replaced by its result. -/
theorem save_archive_refetch_spec (s : PageState) (i : Nat) (eid : Option Nat)
    (evts : List Event) (r : Except String (List Event)) :
    ((handleSave s (some i) (Except.ok ()) r).calls =
        s.calls ++ [BackendCall.updateEvent (some i) s.token,
                    BackendCall.getEvents s.token s.showArchived])
    ∧ ((handleSave s none (Except.ok ()) r).calls =
        s.calls ++ [BackendCall.createEvent s.token,
                    BackendCall.getEvents s.token s.showArchived])
    ∧ ((handleSave s eid (Except.ok ()) (Except.ok evts)).events = evts)
    ∧ ((confirmArchive s (Except.ok ()) r).calls =
        s.calls ++ [BackendCall.deleteEvent s.confirmationModal.eventId s.token,
                    BackendCall.getEvents s.token s.showArchived])
    ∧ ((confirmArchive s (Except.ok ()) (Except.ok evts)).events = evts) := by
  refine ⟨?_, ?_, ?_, ?_, rfl⟩
  · cases r with
    | ok evts2 => simp [handleSave]
    | error msg => simp [handleSave, saveError, clearAndRedirect]; split <;> simp
  · cases r with
    | ok evts2 => simp [handleSave]
    | error msg => simp [handleSave, saveError, clearAndRedirect]; split <;> simp
  · cases eid <;> rfl
  · cases r with
    | ok evts2 => simp [confirmArchive]
    | error msg => simp [confirmArchive, archiveError, clearAndRedirect]; split <;> simp

/-- C1 counterexample: a profile update failing with the 401 message leaves
the stored credentials in localStorage untouched and performs no redirect,
so not every authenticated operation clears storage and redirects on a
401 / invalid-token failure. -/
theorem updateProfile_401_keeps_credentials :
    isAuthErrorMsg "HTTP error! status: 401" = true
    ∧ (handleUpdateProfile sampleProfile
        (Except.error "HTTP error! status: 401")).storage.access_token = some "tok"
    ∧ (handleUpdateProfile sampleProfile
        (Except.error "HTTP error! status: 401")).navigatedTo = none :=
  ⟨by decide, rfl, rfl⟩

/-- C1 (amended): a 401 / invalid-token failure clears the stored
credentials and redirects to the login page for fetch events, save event,
archive event, approve event and fetch participants; the profile fetch does
so on any failure (a 401 included); the profile update is the exception: it
never clears credentials or redirects, showing an error status modal
instead. -/
theorem auth_failure_redirect_spec :
    (∀ (s : PageState) (tok msg : String), s.token = some tok → tok.isEmpty = false →
      isAuthErrorMsg msg = true →
      (fetchData s (Except.error msg)).storage = ⟨none, none⟩
      ∧ (fetchData s (Except.error msg)).navigatedTo = some "/officer-login")
    ∧ (∀ (s : PageState) (eid : Option Nat) (msg : String) (r : Except String (List Event)),
        isAuthErrorMsg msg = true →
        (handleSave s eid (Except.error msg) r).storage = ⟨none, none⟩
        ∧ (handleSave s eid (Except.error msg) r).navigatedTo = some "/officer-login")
    ∧ (∀ (s : PageState) (msg : String) (r : Except String (List Event)),
        isAuthErrorMsg msg = true →
        (confirmArchive s (Except.error msg) r).storage = ⟨none, none⟩
        ∧ (confirmArchive s (Except.error msg) r).navigatedTo = some "/officer-login")
    ∧ (∀ (s : PageState) (i : Nat) (act : String) (reason : Option String)
        (d : Option String) (r : Except String (List Event)),
        s.approvalModal.eventId = some i → act ≠ "decline" →
        (handleApprovalSubmit s act reason (FetchOutcome.httpErr 401 d) r).storage = ⟨none, none⟩
        ∧ (handleApprovalSubmit s act reason (FetchOutcome.httpErr 401 d) r).navigatedTo
            = some "/officer-login")
    ∧ (∀ (s : PageState) (e : Event) (d : Option String), e.id ≠ 0 →
        (handleParticipants s (some e) (FetchOutcome.httpErr 401 d)).storage = ⟨none, none⟩
        ∧ (handleParticipants s (some e) (FetchOutcome.httpErr 401 d)).navigatedTo
            = some "/officer-login")
    ∧ (∀ (s : ProfileState) (tok msg : String), s.token = some tok → tok.isEmpty = false →
        (fetchProfile s (Except.error msg)).storage = ⟨none, none⟩
        ∧ (fetchProfile s (Except.error msg)).navigatedTo = some "/")
    ∧ (∀ (s : ProfileState) (msg : String),
        (handleUpdateProfile s (Except.error msg)).storage = s.storage
        ∧ (handleUpdateProfile s (Except.error msg)).navigatedTo = s.navigatedTo
        ∧ (handleUpdateProfile s (Except.error msg)).modalState.isOpen = true
        ∧ (handleUpdateProfile s (Except.error msg)).modalState.type = "error") := by
  refine ⟨?_, ?_, ?_, ?_, ?_, ?_, ?_⟩
  · intro s tok msg ht he ha
    simp [fetchData, ht, he, ha, clearAndRedirect]
  · intro s eid msg r ha
    constructor <;> simp [handleSave, saveError, ha, clearAndRedirect]
  · intro s msg r ha
    constructor <;> simp [confirmArchive, archiveError, ha, clearAndRedirect]
  · intro s i act reason d r hi hact
    constructor <;> simp [handleApprovalSubmit, hi, hact, clearAndRedirect]
  · intro s e d hid
    constructor <;> simp [handleParticipants, hid, clearAndRedirect]
  · intro s tok msg ht he
    simp [fetchProfile, ht, he]
  · intro s msg
    exact ⟨rfl, rfl, rfl, rfl⟩

/-- C1 witness: the amended theorem evaluated at a failed event fetch with
the invalid-token message and at a failed profile update. -/
theorem auth_failure_redirect_spec_witness :
    isAuthErrorMsg "Invalid or expired token" = true
    ∧ (fetchData samplePage (Except.error "Invalid or expired token")).navigatedTo
        = some "/officer-login"
    ∧ (handleUpdateProfile sampleProfile (Except.error "boom")).storage
        = sampleProfile.storage :=
  ⟨by decide,
   (auth_failure_redirect_spec.1 samplePage "tok" "Invalid or expired token"
      rfl (by decide) (by decide)).2,
   (auth_failure_redirect_spec.2.2.2.2.2.2 sampleProfile "boom").1⟩

/-- C2 counterexample: a profile fetch failing with a plain network error —
not a 401 / invalid-token response — clears the stored credentials and
redirects to the login page instead of showing an error status modal. -/
theorem fetchProfile_error_redirects :
    isAuthErrorMsg "Network failure" = false
    ∧ (fetchProfile sampleProfile (Except.error "Network failure")).storage.access_token = none
    ∧ (fetchProfile sampleProfile (Except.error "Network failure")).navigatedTo = some "/"
    ∧ (fetchProfile sampleProfile (Except.error "Network failure")).modalState.isOpen = false :=
  ⟨by decide, rfl, rfl, rfl⟩

/-- C2 (amended): every non-401 / non-invalid-token request failure of the
events page and of the profile update surfaces as an open error-type status
modal and leaves credentials and navigation untouched; the profile fetch is
the exception: any of its failures clears the stored credentials and
redirects to login without opening a status modal. -/
theorem non_auth_failure_modal_spec :
    (∀ (s : PageState) (tok msg : String), s.token = some tok → tok.isEmpty = false →
      isAuthErrorMsg msg = false →
      (fetchData s (Except.error msg)).statusModal.isOpen = true
      ∧ (fetchData s (Except.error msg)).statusModal.type = "error"
      ∧ (fetchData s (Except.error msg)).storage = s.storage
      ∧ (fetchData s (Except.error msg)).navigatedTo = s.navigatedTo)
    ∧ (∀ (s : PageState) (eid : Option Nat) (msg : String) (r : Except String (List Event)),
        isAuthErrorMsg msg = false →
        (handleSave s eid (Except.error msg) r).statusModal.isOpen = true
        ∧ (handleSave s eid (Except.error msg) r).statusModal.type = "error"
        ∧ (handleSave s eid (Except.error msg) r).storage = s.storage
        ∧ (handleSave s eid (Except.error msg) r).navigatedTo = s.navigatedTo)
    ∧ (∀ (s : PageState) (msg : String) (r : Except String (List Event)),
        isAuthErrorMsg msg = false →
        (confirmArchive s (Except.error msg) r).statusModal.isOpen = true
        ∧ (confirmArchive s (Except.error msg) r).statusModal.type = "error"
        ∧ (confirmArchive s (Except.error msg) r).storage = s.storage
        ∧ (confirmArchive s (Except.error msg) r).navigatedTo = s.navigatedTo)
    ∧ (∀ (s : PageState) (i : Nat) (act : String) (reason : Option String)
        (st : Nat) (d : Option String) (r : Except String (List Event)),
        s.approvalModal.eventId = some i → act ≠ "decline" → st ≠ 401 →
        (handleApprovalSubmit s act reason (FetchOutcome.httpErr st d) r).statusModal.isOpen = true
        ∧ (handleApprovalSubmit s act reason (FetchOutcome.httpErr st d) r).statusModal.type = "error"
        ∧ (handleApprovalSubmit s act reason (FetchOutcome.httpErr st d) r).storage = s.storage
        ∧ (handleApprovalSubmit s act reason (FetchOutcome.httpErr st d) r).navigatedTo = s.navigatedTo)
    ∧ (∀ (s : PageState) (e : Event) (st : Nat) (d : Option String),
        e.id ≠ 0 → st ≠ 401 →
        (handleParticipants s (some e) (FetchOutcome.httpErr st d)).statusModal.isOpen = true
        ∧ (handleParticipants s (some e) (FetchOutcome.httpErr st d)).statusModal.type = "error"
        ∧ (handleParticipants s (some e) (FetchOutcome.httpErr st d)).storage = s.storage
        ∧ (handleParticipants s (some e) (FetchOutcome.httpErr st d)).navigatedTo = s.navigatedTo)
    ∧ (∀ (s : ProfileState) (msg : String),
        (handleUpdateProfile s (Except.error msg)).modalState.isOpen = true
        ∧ (handleUpdateProfile s (Except.error msg)).modalState.type = "error"
        ∧ (handleUpdateProfile s (Except.error msg)).storage = s.storage
        ∧ (handleUpdateProfile s (Except.error msg)).navigatedTo = s.navigatedTo)
    ∧ (∀ (s : ProfileState) (tok msg : String), s.token = some tok → tok.isEmpty = false →
        (fetchProfile s (Except.error msg)).storage = ⟨none, none⟩
        ∧ (fetchProfile s (Except.error msg)).navigatedTo = some "/"
        ∧ (fetchProfile s (Except.error msg)).modalState = s.modalState)
    ∧ (∀ (s : PageState) (i : Nat) (act : String) (reason : Option String)
        (msg : String) (r : Except String (List Event)),
        s.approvalModal.eventId = some i → act ≠ "decline" →
        (handleApprovalSubmit s act reason (FetchOutcome.thrown msg) r).statusModal.isOpen = true
        ∧ (handleApprovalSubmit s act reason (FetchOutcome.thrown msg) r).statusModal.type = "error"
        ∧ (handleApprovalSubmit s act reason (FetchOutcome.thrown msg) r).storage = s.storage
        ∧ (handleApprovalSubmit s act reason (FetchOutcome.thrown msg) r).navigatedTo = s.navigatedTo)
    ∧ (∀ (s : PageState) (e : Event) (msg : String), e.id ≠ 0 →
        (handleParticipants s (some e) (FetchOutcome.thrown msg)).statusModal.isOpen = true
        ∧ (handleParticipants s (some e) (FetchOutcome.thrown msg)).statusModal.type = "error"
        ∧ (handleParticipants s (some e) (FetchOutcome.thrown msg)).storage = s.storage
        ∧ (handleParticipants s (some e) (FetchOutcome.thrown msg)).navigatedTo = s.navigatedTo)
    ∧ (∀ (s : PageState) (eid : Option Nat) (msg : String),
        isAuthErrorMsg msg = false →
        (handleSave s eid (Except.ok ()) (Except.error msg)).statusModal.isOpen = true
        ∧ (handleSave s eid (Except.ok ()) (Except.error msg)).statusModal.type = "error"
        ∧ (handleSave s eid (Except.ok ()) (Except.error msg)).storage = s.storage
        ∧ (handleSave s eid (Except.ok ()) (Except.error msg)).navigatedTo = s.navigatedTo)
    ∧ (∀ (s : PageState) (msg : String),
        isAuthErrorMsg msg = false →
        (confirmArchive s (Except.ok ()) (Except.error msg)).statusModal.isOpen = true
        ∧ (confirmArchive s (Except.ok ()) (Except.error msg)).statusModal.type = "error"
        ∧ (confirmArchive s (Except.ok ()) (Except.error msg)).storage = s.storage
        ∧ (confirmArchive s (Except.ok ()) (Except.error msg)).navigatedTo = s.navigatedTo)
    ∧ (∀ (s : PageState) (i : Nat) (act : String) (reason : Option String) (msg : String),
        s.approvalModal.eventId = some i → act ≠ "decline" →
        (handleApprovalSubmit s act reason (FetchOutcome.ok ())
            (Except.error msg)).statusModal.isOpen = true
        ∧ (handleApprovalSubmit s act reason (FetchOutcome.ok ())
            (Except.error msg)).statusModal.type = "error"
        ∧ (handleApprovalSubmit s act reason (FetchOutcome.ok ())
            (Except.error msg)).storage = s.storage
        ∧ (handleApprovalSubmit s act reason (FetchOutcome.ok ())
            (Except.error msg)).navigatedTo = s.navigatedTo) := by
  refine ⟨?_, ?_, ?_, ?_, ?_, ?_, ?_, ?_, ?_, ?_, ?_, ?_⟩
  · intro s tok msg ht he ha
    refine ⟨?_, ?_, ?_, ?_⟩ <;> simp [fetchData, ht, he, ha]
  · intro s eid msg r ha
    refine ⟨?_, ?_, ?_, ?_⟩ <;> simp [handleSave, saveError, ha]
  · intro s msg r ha
    refine ⟨?_, ?_, ?_, ?_⟩ <;> simp [confirmArchive, archiveError, ha]
  · intro s i act reason st d r hi hact hst
    refine ⟨?_, ?_, ?_, ?_⟩ <;>
      simp [handleApprovalSubmit, approvalCatch, hi, hact, hst]
  · intro s e st d hid hst
    refine ⟨?_, ?_, ?_, ?_⟩ <;> simp [handleParticipants, hid, hst]
  · intro s msg
    exact ⟨rfl, rfl, rfl, rfl⟩
  · intro s tok msg ht he
    refine ⟨?_, ?_, ?_⟩ <;> simp [fetchProfile, ht, he]
  · intro s i act reason msg r hi hact
    refine ⟨?_, ?_, ?_, ?_⟩ <;> simp [handleApprovalSubmit, approvalCatch, hi, hact]
  · intro s e msg hid
    refine ⟨?_, ?_, ?_, ?_⟩ <;> simp [handleParticipants, hid]
  · intro s eid msg ha
    refine ⟨?_, ?_, ?_, ?_⟩ <;> cases eid <;> simp [handleSave, saveError, ha]
  · intro s msg ha
    refine ⟨?_, ?_, ?_, ?_⟩ <;> simp [confirmArchive, archiveError, ha]
  · intro s i act reason msg hi hact
    refine ⟨?_, ?_, ?_, ?_⟩ <;> simp [handleApprovalSubmit, approvalCatch, hi, hact]

/-- C2 witness: the amended theorem evaluated at a non-401 event-fetch
failure, a thrown participants failure, and a non-401 profile-fetch
failure. -/
theorem non_auth_failure_modal_spec_witness :
    isAuthErrorMsg "Failed to fetch" = false
    ∧ (fetchData samplePage (Except.error "Failed to fetch")).statusModal.type = "error"
    ∧ (fetchData samplePage (Except.error "Failed to fetch")).navigatedTo = samplePage.navigatedTo
    ∧ (handleParticipants samplePage (some sampleEvent)
        (FetchOutcome.thrown "Failed to fetch")).statusModal.type = "error"
    ∧ (handleParticipants samplePage (some sampleEvent)
        (FetchOutcome.thrown "Failed to fetch")).storage = samplePage.storage
    ∧ (fetchProfile sampleProfile (Except.error "Failed to fetch")).navigatedTo = some "/" :=
  ⟨by decide,
   (non_auth_failure_modal_spec.1 samplePage "tok" "Failed to fetch"
      rfl (by decide) (by decide)).2.1,
   (non_auth_failure_modal_spec.1 samplePage "tok" "Failed to fetch"
      rfl (by decide) (by decide)).2.2.2,
   (non_auth_failure_modal_spec.2.2.2.2.2.2.2.2.1 samplePage sampleEvent
      "Failed to fetch" (by decide)).2.1,
   (non_auth_failure_modal_spec.2.2.2.2.2.2.2.2.1 samplePage sampleEvent
      "Failed to fetch" (by decide)).2.2.1,
   (non_auth_failure_modal_spec.2.2.2.2.2.2.1 sampleProfile "tok" "Failed to fetch"
      rfl (by decide)).2.1⟩

/-- C4 counterexample: a participants fetch failing with a 401 does not open
the participants modal (it redirects to login instead), so not every failed
participants fetch opens the modal. -/
theorem participants_401_no_modal :
    (handleParticipants samplePage (some sampleEvent)
      (FetchOutcome.httpErr 401 none)).showParticipantsModal = false
    ∧ (handleParticipants samplePage (some sampleEvent)
        (FetchOutcome.httpErr 401 none)).navigatedTo = some "/officer-login" :=
  ⟨rfl, rfl⟩

/-- C4 (amended): every participants fetch that fails with a non-401 error
(an HTTP error or a thrown error) still opens the participants modal with an
empty participant list; a 401 failure instead clears the credentials and
redirects to login, leaving the participants modal as it was. -/
theorem participants_failure_spec (s : PageState) (e : Event) :
    (∀ (st : Nat) (d : Option String), e.id ≠ 0 → st ≠ 401 →
      (handleParticipants s (some e) (FetchOutcome.httpErr st d)).showParticipantsModal = true
      ∧ (handleParticipants s (some e) (FetchOutcome.httpErr st d)).participants = [])
    ∧ (∀ msg : String, e.id ≠ 0 →
        (handleParticipants s (some e) (FetchOutcome.thrown msg)).showParticipantsModal = true
        ∧ (handleParticipants s (some e) (FetchOutcome.thrown msg)).participants = [])
    ∧ (∀ d : Option String, e.id ≠ 0 →
        (handleParticipants s (some e) (FetchOutcome.httpErr 401 d)).showParticipantsModal
            = s.showParticipantsModal
        ∧ (handleParticipants s (some e) (FetchOutcome.httpErr 401 d)).navigatedTo
            = some "/officer-login") := by
  refine ⟨?_, ?_, ?_⟩
  · intro st d hid hst
    constructor <;> simp [handleParticipants, hid, hst]
  · intro msg hid
    constructor <;> simp [handleParticipants, hid]
  · intro d hid
    constructor <;> simp [handleParticipants, hid, clearAndRedirect]

/-- C4 witness: a participants fetch for event 5 failing with HTTP 500 opens
the modal with an empty list. -/
theorem participants_failure_spec_witness :
    sampleEvent.id ≠ 0 ∧ (500 : Nat) ≠ 401
    ∧ (handleParticipants samplePage (some sampleEvent)
        (FetchOutcome.httpErr 500 none)).showParticipantsModal = true
    ∧ (handleParticipants samplePage (some sampleEvent)
        (FetchOutcome.httpErr 500 none)).participants = [] :=
  ⟨by decide, by decide,
   ((participants_failure_spec samplePage sampleEvent).1 500 none (by decide) (by decide)).1,
   ((participants_failure_spec samplePage sampleEvent).1 500 none (by decide) (by decide)).2⟩

/-- C6 counterexample: an approve submission answered with HTTP 401 shows no
status modal at all — the page clears credentials and redirects instead —
so the approve path does not always surface a success or error status
modal. -/
theorem approval_401_no_status_modal :
    (handleApprovalSubmit samplePageApproval "approve" none
      (FetchOutcome.httpErr 401 none) (Except.ok [])).statusModal.isOpen = false
    ∧ (handleApprovalSubmit samplePageApproval "approve" none
        (FetchOutcome.httpErr 401 none) (Except.ok [])).navigatedTo = some "/officer-login" :=
  ⟨rfl, rfl⟩

/-- C6 (amended): for every approval-modal submission with a present event
id: a decline makes no backend call and shows the decline status modal with
the reason when given; an approve issues the approve request, shows the
success modal when the request (and the following list re-fetch) succeeds,
shows an error status modal on a non-401 failure, and on a 401 clears the
credentials and redirects with no status modal. -/
theorem approval_submit_spec (s : PageState) (i : Nat) (reason : Option String)
    (hi : s.approvalModal.eventId = some i) :
    (∀ (ar : FetchOutcome Unit) (rr : Except String (List Event)),
      (handleApprovalSubmit s "decline" reason ar rr).calls = s.calls
      ∧ (handleApprovalSubmit s "decline" reason ar rr).statusModal =
          ⟨true, "Event Declined",
            "The event plan has been declined." ++ declineReasonText reason, "error"⟩
      ∧ (handleApprovalSubmit s "decline" reason ar rr).approvalModal = ⟨false, none⟩)
    ∧ (∀ (act : String) (ar : FetchOutcome Unit) (rr : Except String (List Event)),
        act ≠ "decline" →
        BackendCall.approveEvent i ∈ (handleApprovalSubmit s act reason ar rr).calls)
    ∧ (∀ (act : String) (evts : List Event), act ≠ "decline" →
        (handleApprovalSubmit s act reason (FetchOutcome.ok ()) (Except.ok evts)).statusModal =
          ⟨true, "Event Approved", "The event plan has been successfully approved.", "success"⟩)
    ∧ (∀ (act : String) (st : Nat) (d : Option String) (rr : Except String (List Event)),
        act ≠ "decline" → st ≠ 401 →
        (handleApprovalSubmit s act reason (FetchOutcome.httpErr st d) rr).statusModal.isOpen = true
        ∧ (handleApprovalSubmit s act reason (FetchOutcome.httpErr st d) rr).statusModal.type = "error")
    ∧ (∀ (act msg : String) (rr : Except String (List Event)), act ≠ "decline" →
        (handleApprovalSubmit s act reason (FetchOutcome.thrown msg) rr).statusModal.isOpen = true
        ∧ (handleApprovalSubmit s act reason (FetchOutcome.thrown msg) rr).statusModal.type = "error")
    ∧ (∀ (act : String) (d : Option String) (rr : Except String (List Event)),
        act ≠ "decline" →
        (handleApprovalSubmit s act reason (FetchOutcome.httpErr 401 d) rr).statusModal = s.statusModal
        ∧ (handleApprovalSubmit s act reason (FetchOutcome.httpErr 401 d) rr).navigatedTo
            = some "/officer-login") := by
  refine ⟨?_, ?_, ?_, ?_, ?_, ?_⟩
  · intro ar rr
    refine ⟨?_, ?_, ?_⟩ <;> simp [handleApprovalSubmit, hi]
  · intro act ar rr hact
    cases ar with
    | ok b =>
      cases rr with
      | ok evts => simp [handleApprovalSubmit, hi, hact]
      | error msg => simp [handleApprovalSubmit, hi, hact, approvalCatch]
    | httpErr st d =>
      by_cases hst : st = 401
      · simp [handleApprovalSubmit, hi, hact, hst, clearAndRedirect]
      · simp [handleApprovalSubmit, hi, hact, hst, approvalCatch]
    | thrown msg => simp [handleApprovalSubmit, hi, hact, approvalCatch]
  · intro act evts hact
    simp [handleApprovalSubmit, hi, hact]
  · intro act st d rr hact hst
    constructor <;> simp [handleApprovalSubmit, hi, hact, hst, approvalCatch]
  · intro act msg rr hact
    constructor <;> simp [handleApprovalSubmit, hi, hact, approvalCatch]
  · intro act d rr hact
    constructor <;> simp [handleApprovalSubmit, hi, hact, clearAndRedirect]

/-- C6 witness: the amended theorem evaluated on the approval modal open for
event 7 — a decline leaves the backend-call log unchanged, and a successful
approve shows the success modal. -/
theorem approval_submit_spec_witness :
    samplePageApproval.approvalModal.eventId = some 7
    ∧ (handleApprovalSubmit samplePageApproval "decline" (some "late")
        (FetchOutcome.ok ()) (Except.ok [])).calls = samplePageApproval.calls
    ∧ (handleApprovalSubmit samplePageApproval "approve" none
        (FetchOutcome.ok ()) (Except.ok [])).statusModal =
        ⟨true, "Event Approved", "The event plan has been successfully approved.", "success"⟩ :=
  ⟨rfl,
   ((approval_submit_spec samplePageApproval 7 (some "late") rfl).1
      (FetchOutcome.ok ()) (Except.ok [])).1,
   (approval_submit_spec samplePageApproval 7 none rfl).2.2.1 "approve" [] (by decide)⟩

theorem step_calls_deleteFilter (s : PageState) (a : UIAction)
    (h : ∀ (d : Except String Unit) (r : Except String (List Event)),
      a ≠ UIAction.confirmArchiveAct d r) :
    ((step s a).calls).filter callIsDelete = s.calls.filter callIsDelete := by
  cases a with
  | fetch r =>
    simp only [step, fetchData]
    cases s.token with
    | none => rfl
    | some tok =>
      by_cases he : tok.isEmpty
      · simp [he]
      · cases r with
        | ok evts => simp [he, callIsDelete, List.filter_append]
        | error msg =>
          by_cases ha : isAuthErrorMsg msg
          · simp [he, ha, clearAndRedirect, callIsDelete, List.filter_append]
          · simp [he, ha, callIsDelete, List.filter_append]
  | addNewEvent => rfl
  | edit evt => rfl
  | approveOpen i => rfl
  | approvalSubmit act reason ar rr =>
    simp only [step, handleApprovalSubmit]
    cases hyp : s.approvalModal.eventId with
    | none => rfl
    | some i =>
      by_cases hact : act = "decline"
      · simp [hact]
      · simp only [hact, if_neg, ite_false]
        cases ar with
        | ok b =>
          cases rr with
          | ok evts => simp [callIsDelete, List.filter_append]
          | error msg => simp [approvalCatch, callIsDelete, List.filter_append]
        | httpErr st d =>
          by_cases hst : st = 401
          · simp [hst, clearAndRedirect, callIsDelete, List.filter_append]
          · simp [hst, approvalCatch, callIsDelete, List.filter_append]
        | thrown msg => simp [approvalCatch, callIsDelete, List.filter_append]
  | archiveClick i => rfl
  | confirmArchiveAct d r => exact absurd rfl (h d r)
  | details evt => rfl
  | participantsClick ev r =>
    simp only [step, handleParticipants]
    cases ev with
    | none => rfl
    | some e =>
      by_cases hid : e.id = 0
      · simp [hid]
      · cases r with
        | ok body => simp [hid, callIsDelete, List.filter_append]
        | httpErr st d =>
          by_cases hst : st = 401
          · simp [hid, hst, clearAndRedirect, callIsDelete, List.filter_append]
          · simp [hid, hst, callIsDelete, List.filter_append]
        | thrown msg => simp [hid, callIsDelete, List.filter_append]
  | closeEventModal => rfl
  | closeDetailsModal => rfl
  | closeParticipantsModal => rfl
  | closeStatusModal => rfl
  | closeConfirmation =>
    simp only [step, handleCloseConfirmationModal]
    by_cases hl : s.confirmationModal.isLoading
    · simp [hl]
    · simp [hl]
  | closeApproval => rfl
  | saveEvent eid sr rr =>
    simp only [step, handleSave]
    cases sr with
    | error msg =>
      by_cases ha : isAuthErrorMsg msg
      · cases eid <;> simp [saveError, ha, clearAndRedirect, callIsDelete, List.filter_append]
      · cases eid <;> simp [saveError, ha, callIsDelete, List.filter_append]
    | ok u =>
      cases rr with
      | ok evts => cases eid <;> simp [callIsDelete, List.filter_append]
      | error msg =>
        by_cases ha : isAuthErrorMsg msg
        · cases eid <;> simp [saveError, ha, clearAndRedirect, callIsDelete, List.filter_append]
        · cases eid <;> simp [saveError, ha, callIsDelete, List.filter_append]
  | toggle => rfl

theorem run_no_confirm_deleteFilter (tr : List UIAction) (s : PageState)
    (h : ∀ (d : Except String Unit) (r : Except String (List Event)),
      UIAction.confirmArchiveAct d r ∉ tr) :
    ((run s tr).calls).filter callIsDelete = s.calls.filter callIsDelete := by
  induction tr generalizing s with
  | nil => rfl
  | cons a rest ih =>
    have ha : ∀ (d : Except String Unit) (r : Except String (List Event)),
        a ≠ UIAction.confirmArchiveAct d r := by
      intro d r hc
      exact h d r (by rw [hc]; exact List.mem_cons_self _ _)
    have hrest : ∀ (d : Except String Unit) (r : Except String (List Event)),
        UIAction.confirmArchiveAct d r ∉ rest := by
      intro d r hc
      exact h d r (List.mem_cons_of_mem _ hc)
    show ((run (step s a) rest).calls).filter callIsDelete = _
    rw [ih (step s a) hrest, step_calls_deleteFilter s a ha]

/-- C5: clicking Archive only opens the confirmation modal without issuing
any backend call; a `deleteOfficerEvent` request is only ever emitted by the
confirmation modal's confirm action, taken while the modal is open; and a
run of the page containing no confirm action never issues a delete
request. -/
theorem archive_confirmation_spec :
    (∀ (s : PageState) (i : Nat),
      (step s (UIAction.archiveClick i)).calls = s.calls
      ∧ (step s (UIAction.archiveClick i)).confirmationModal.isOpen = true)
    ∧ (∀ (s : PageState) (a : UIAction) (i : Option Nat) (tok : Option String),
        BackendCall.deleteEvent i tok ∈ (step s a).calls →
        BackendCall.deleteEvent i tok ∈ s.calls ∨
        ((∃ (d : Except String Unit) (r : Except String (List Event)),
            a = UIAction.confirmArchiveAct d r)
          ∧ s.confirmationModal.isOpen = true))
    ∧ (∀ (token : Option String) (st : OfficerStorage) (tr : List UIAction),
        (∀ (d : Except String Unit) (r : Except String (List Event)),
          UIAction.confirmArchiveAct d r ∉ tr) →
        ∀ (i : Option Nat) (tok : Option String),
          BackendCall.deleteEvent i tok ∉ (run (initState token st) tr).calls) := by
  refine ⟨?_, ?_, ?_⟩
  · intro s i
    exact ⟨rfl, rfl⟩
  · intro s a i tok hmem
    by_cases hc : ∃ (d : Except String Unit) (r : Except String (List Event)),
        a = UIAction.confirmArchiveAct d r
    · obtain ⟨d, r, rfl⟩ := hc
      simp only [step] at hmem
      by_cases hg : s.confirmationModal.isOpen && s.confirmationModal.onConfirmIsArchive
      · right
        exact ⟨⟨d, r, rfl⟩, (Bool.and_eq_true _ _ |>.mp hg).1⟩
      · left
        rw [if_neg (by simpa using hg)] at hmem
        exact hmem
    · left
      have ha : ∀ (d : Except String Unit) (r : Except String (List Event)),
          a ≠ UIAction.confirmArchiveAct d r := by
        intro d r hr
        exact hc ⟨d, r, hr⟩
      have hf := step_calls_deleteFilter s a ha
      have h1 : BackendCall.deleteEvent i tok ∈ ((step s a).calls).filter callIsDelete :=
        List.mem_filter.mpr ⟨hmem, rfl⟩
      rw [hf] at h1
      exact (List.mem_filter.mp h1).1
  · intro token st tr htr i tok hmem
    have hf := run_no_confirm_deleteFilter tr (initState token st) htr
    have h1 : BackendCall.deleteEvent i tok ∈ ((run (initState token st) tr).calls).filter callIsDelete :=
      List.mem_filter.mpr ⟨hmem, rfl⟩
    rw [hf] at h1
    simp [initState] at h1

/-- C5 witness: on the sample page, clicking Archive for event 5 opens the
confirmation modal, and a run that archives-then-cancels without confirming
issues no delete request. -/
theorem archive_confirmation_spec_witness :
    (step samplePage (UIAction.archiveClick 5)).confirmationModal.isOpen = true
    ∧ BackendCall.deleteEvent (some 5) (some "tok") ∉
        (run (initState (some "tok") ⟨some "tok", some "info"⟩)
          [UIAction.archiveClick 5, UIAction.closeConfirmation]).calls :=
  ⟨(archive_confirmation_spec.1 samplePage 5).2,
   archive_confirmation_spec.2.2 (some "tok") ⟨some "tok", some "info"⟩
     [UIAction.archiveClick 5, UIAction.closeConfirmation]
     (by intro d r hmem; simp at hmem) (some 5) (some "tok")⟩
